import Mathlib

/-!
Verification of the HealthAssistant chat router (`app.py`) against its
design specification.  Python strings are embedded as `List Char`;
Python's substring test `needle in hay` is embedded as list-infix;
`str.lower()` as character-wise `Char.toLower` (the strings involved are
ASCII, where Python's `lower` agrees with `Char.toLower`).  SQLite rows
are embedded as explicit lists; `ORDER BY` is embedded as an insertion
sort on the corresponding key (tie order in SQLite is unspecified, so a
concrete stable sort is a legitimate model choice).  The external LLM
agents are black boxes (`invoke(conversation) -> (conversation, text)`
per the spec), embedded as function parameters returning `Except` to
expose the failures the session loop catches.
-/

namespace HealthAssistant

/-- Python strings, embedded as lists of characters. -/
abbrev Str := List Char

/-- The `s.lower()` (character-wise; agrees with Python on ASCII). -/
def lowerStr (s : Str) : Str := s.map Char.toLower

/-- Python's `needle in hay` substring test. -/
def containsSub (hay needle : Str) : Bool := decide (needle <:+: hay)

/-- The `SQL_AGENT_KEYWORDS` from `app.py` (verbatim). -/
def SQL_AGENT_KEYWORDS : List Str :=
  [ "book", "booking", "reserve", "reservation", "reservations",
    "cancel", "cancellation", "delete", "remove",
    "slot", "slots", "available", "availability",
    "my appointments", "my bookings", "my reservations",
    "appointment", "appointments",
    "database", "db",
    "slot_id", "slot id" ].map (fun s => s.toList)

/-- The `SUMMARY_AGENT_KEYWORDS` from `app.py` (verbatim). -/
def SUMMARY_AGENT_KEYWORDS : List Str :=
  [ "summary", "summarize", "summarise", "recap", "recapitulate",
    "consultation summary", "consultation report",
    "what did we discuss", "what we discussed",
    "give me a summary", "show summary" ].map (fun s => s.toList)

/-- The `should_use_sql_agent` from `app.py`. -/
def should_use_sql_agent (message : Str) : Bool :=
  SQL_AGENT_KEYWORDS.any (fun keyword => containsSub (lowerStr message) keyword)

/-- The `should_use_summary_agent` from `app.py`. -/
def should_use_summary_agent (message : Str) : Bool :=
  SUMMARY_AGENT_KEYWORDS.any (fun keyword => containsSub (lowerStr message) keyword)

/-- The availability sub-keyword check inside the websocket SQL branch:
`any(kw in msg_lower for kw in ["slot", "available", "show", "see"])`. -/
def has_availability_kw (message : Str) : Bool :=
  ([ "slot", "available", "show", "see" ].map (fun s => s.toList)).any
    (fun keyword => containsSub (lowerStr message) keyword)

/-- The three routing intents of the websocket router. -/
inductive Intent
  | Summary
  | SqlAgent
  | MedicalQa
deriving DecidableEq

/-- The router's decision structure in `chat_socket`
(`if should_use_summary_agent(msg): ... elif should_use_sql_agent(msg): ... else: ...`). -/
def classify (message : Str) : Intent :=
  if should_use_summary_agent message then Intent.Summary
  else if should_use_sql_agent message then Intent.SqlAgent
  else Intent.MedicalQa

/-- Conversation-buffer roles (the dict entries `{"role": ..., "content": ...}`). -/
inductive MRole
  | user
  | assistant
deriving DecidableEq

/-- A conversation-buffer entry `{"role": role, "content": content}`. -/
structure Msg where
  role : MRole
  content : Str
deriving DecidableEq

/-- The scan loop of `extract_mentioned_doctors_from_history`:
walk `reversed(chat_history)`, and at the first entry whose role is
`"assistant"` collect (in roster order) every doctor whose lowered name
occurs in the lowered content, then `break`. -/
def extract_scan (all_doctors : List Str) : List Msg → List Str
  | [] => []
  | e :: rest =>
    if e.role = MRole.assistant then
      all_doctors.filter (fun doctor_name =>
        containsSub (lowerStr e.content) (lowerStr doctor_name))
    else extract_scan all_doctors rest

/-- The `extract_mentioned_doctors_from_history` from `app.py`; the roster
(`get_all_doctor_names()`, a `SELECT name FROM doctors` in table order)
is passed explicitly. -/
def extract_mentioned_doctors_from_history (all_doctors : List Str)
    (chat_history : List Msg) : List Str :=
  extract_scan all_doctors chat_history.reverse

/-- Specification-side restatement of doctor extraction (from the spec's
words): look only at the most recent assistant entry, and return the
roster doctors whose name is a case-insensitive substring of its
content, in roster order. -/
def extractMentionedSpec (all_doctors : List Str) (chat_history : List Msg) : List Str :=
  match chat_history.reverse.find? (fun e => decide (e.role = MRole.assistant)) with
  | none => []
  | some e => all_doctors.filter (fun doctor_name =>
      containsSub (lowerStr e.content) (lowerStr doctor_name))

example : should_use_sql_agent ("book").toList = true := by decide
example : should_use_sql_agent ("hello").toList = false := by decide
example : should_use_summary_agent ("give me a RECAP").toList = true := by decide
example : has_availability_kw ("book").toList = false := by decide
example : classify ("show available slots").toList = Intent.SqlAgent := by decide

/-- A row of the `doctors` table: `(name, specialization)`. -/
structure Doctor where
  name : Str
  specialization : Str
deriving DecidableEq

/-- A row of the `appointments` table: `(id, doctor, time_slot, patient)`;
`patient IS NULL` marks an open slot. -/
structure Appt where
  idn : Nat
  doctor : Str
  time_slot : Str
  patient : Option Str
deriving DecidableEq

/-- The shared SQLite data store: the two tables read by the router. -/
structure Store where
  doctors : List Doctor
  appts : List Appt
deriving DecidableEq

/-- A joined result row `(a.id, a.doctor, a.time_slot, d.specialization)`. -/
structure SlotRow where
  idn : Nat
  doctor : Str
  time_slot : Str
  specialization : Str
deriving DecidableEq

/-- Lexicographic byte-order on strings (SQLite's default BINARY collation,
restricted to the code points of one character). -/
def strLe (a b : Str) : Bool :=
  match a, b with
  | [], _ => true
  | _ :: _, [] => false
  | c :: a', d :: b' => if c.toNat < d.toNat then true
      else if c.toNat = d.toNat then strLe a' b' else false

/-- The `FROM appointments a JOIN doctors d ON a.doctor = d.name WHERE a.patient IS NULL`:
the open slots joined with their doctor rows (unordered). -/
def openRows (s : Store) : List SlotRow :=
  (s.appts.filter (fun a => a.patient = none)).flatMap (fun a =>
    (s.doctors.filter (fun d => d.name = a.doctor)).map (fun d =>
      ⟨a.idn, a.doctor, a.time_slot, d.specialization⟩))

/-- The `get_slots_by_doctors` from `app.py`: open slots whose doctor matches one
of the given names case-insensitively, `ORDER BY a.time_slot`. -/
def get_slots_by_doctors (doctor_names : List Str) (s : Store) : List SlotRow :=
  if doctor_names = [] then []
  else
    List.insertionSort (fun r r' => strLe r.time_slot r'.time_slot = true)
      ((openRows s).filter (fun r =>
        doctor_names.any (fun n => lowerStr r.doctor = lowerStr n)))

/-- The `get_slots_by_specialization(None)` from `app.py`: all open slots,
`ORDER BY d.specialization, a.time_slot`. -/
def get_slots_by_specialization_none (s : Store) : List SlotRow :=
  List.insertionSort (fun r r' =>
      (if r.specialization = r'.specialization
       then strLe r.time_slot r'.time_slot
       else strLe r.specialization r'.specialization) = true)
    (openRows s)

/-- Decimal rendering of an id (Python's `str(int)` inside the f-string). -/
def natStr (n : Nat) : Str := (toString n).toList

/-- One slot line of the prefetch block:
`f"- Slot ID {slot_id}: {doctor} ({spec}) - {time_slot}\n"`. -/
def fmtSlot (r : SlotRow) : Str :=
  ("- Slot ID ").toList ++ natStr r.idn ++ (": ").toList ++ r.doctor ++
    (" (").toList ++ r.specialization ++ (") - ").toList ++ r.time_slot ++ ("\n").toList

/-- Python's `", ".join(names)`. -/
def joinComma (names : List Str) : Str := List.intercalate ((", ").toList) names

/-- The `slots_info` string built by `chat_socket` (app.py lines 850-885)
for an availability-keyword message, given the mentioned doctors already
extracted from the general buffer. -/
def build_slots_info (mentioned_doctors : List Str) (s : Store) : Str :=
  if mentioned_doctors ≠ [] then
    let slots := get_slots_by_doctors mentioned_doctors s
    if slots ≠ [] then
      ("AVAILABLE SLOTS FOR ").toList ++ joinComma mentioned_doctors ++ (":\n").toList ++
        (slots.map fmtSlot).flatten
    else
      let all_slots := get_slots_by_specialization_none s
      if all_slots ≠ [] then
        ("No slots available for ").toList ++ joinComma mentioned_doctors ++
          (". Here are ALL available slots:\n").toList ++ (all_slots.map fmtSlot).flatten
      else ("No appointment slots available at the moment.").toList
  else
    let all_slots := get_slots_by_specialization_none s
    if all_slots ≠ [] then
      ("ALL AVAILABLE SLOTS:\n").toList ++ (all_slots.map fmtSlot).flatten
    else ("No appointment slots available at the moment.").toList

/-- The full message handed to the sql agent:
`f"[PRE-FETCHED SLOTS DATA - USE THIS EXACTLY, DO NOT QUERY AGAIN]:\n{slots_info}\n\nUser says: " + msg`. -/
def message_for_agent (slots_info msg : Str) : Str :=
  ("[PRE-FETCHED SLOTS DATA - USE THIS EXACTLY, DO NOT QUERY AGAIN]:\n").toList ++
    slots_info ++ ("\n\nUser says: ").toList ++ msg

/-- The `get_all_doctors_list` from `app.py`: `SELECT name, specialization FROM
doctors ORDER BY specialization, name`, grouped by specialization with the
groups emitted in sorted key order. -/
def get_all_doctors_list (s : Store) : Str :=
  let rows := List.insertionSort (fun d d' =>
      (if d.specialization = d'.specialization
       then strLe d.name d'.name
       else strLe d.specialization d'.specialization) = true)
    s.doctors
  if rows = [] then ("NO DOCTORS AVAILABLE in the system.").toList
  else
    let groups := rows.splitBy (fun d d' => d.specialization = d'.specialization)
    let lines := ("AVAILABLE DOCTORS IN OUR SYSTEM:").toList ::
      groups.map (fun g =>
        match g with
        | [] => []
        | d :: _ =>
          ("- ").toList ++ d.specialization ++ (": ").toList ++
            joinComma (g.map (fun d => d.name)))
    List.intercalate (("\n").toList) lines

/-- Python whitespace for `str.strip()` (the ASCII whitespace characters;
the texts involved are ASCII). -/
def isPySpace (c : Char) : Bool :=
  c = ' ' ∨ c = '\t' ∨ c = '\n' ∨ c = '\r' ∨ c = '\x0b' ∨ c = '\x0c'

/-- Python's `str.strip()`. -/
def pyStrip (s : Str) : Str :=
  ((s.dropWhile isPySpace).reverse.dropWhile isPySpace).reverse

/-- Python's negative-start slice `l[-bound:]`: the last `bound` elements,
except that `l[-0:]` is the whole list. -/
def pyLastSlice (bound : Nat) (l : List Msg) : List Msg :=
  if bound = 0 then l else l.drop (l.length - bound)

/-- The buffer truncation performed after each user append
(`if len(buffer) > CHAT_BUFFER: buffer[:] = buffer[-CHAT_BUFFER:]`). -/
def pyTruncate (bound : Nat) (l : List Msg) : List Msg :=
  if l.length > bound then pyLastSlice bound l else l

/-- Transcript roles: `save_chat_message` is called with `"user"` or `"bot"`. -/
inductive TRole
  | user
  | bot
deriving DecidableEq

/-- One external agent invocation, recording what was passed to it. -/
inductive AgentCall
  | summary (user_name : Str)
  | sqlAgent (conversation : List Msg)
  | medicalQa (conversation : List Msg)
deriving DecidableEq

/-- Which router intent an invocation belongs to. -/
def callKind : AgentCall → Intent
  | AgentCall.summary _ => Intent.Summary
  | AgentCall.sqlAgent _ => Intent.SqlAgent
  | AgentCall.medicalQa _ => Intent.MedicalQa

/-- The session environment: configuration, the shared store, and the
external collaborators (the three agents and the optional retriever),
embedded as black-box functions; `Except` carries a raised exception's
`str(e)`. -/
structure Env where
  store : Store
  /-- Modelled from the spec: the configured buffer bound `CHAT_BUFFER`,
  whose value lives in the excluded `config` module. -/
  bound : Nat
  user_name : Str
  /-- The `doc_retriever` with `search_medical_info`; `none` when the document
  agent failed to initialize. -/
  retriever : Option (Str → Str)
  /-- The `generate_consultation_summary(summary_llm, user_name)`. -/
  summaryAgent : Str → Except Str Str
  /-- Invocation of `sql_agent` on the message buffer followed by `parse_results`. -/
  sqlAgent : List Msg → Except Str (List Msg × Str)
  /-- Invocation of the medical `agent` on the message buffer followed by `parse_results`. -/
  llmAgent : List Msg → Except Str (List Msg × Str)
  /-- The interpreter-supplied `str(e)` of the `UnboundLocalError` raised
  when line 924 reads the local `response` before any of its assignments
  (app.py 843/895/920) has run.  CPython 3.11+ words it as in
  `cexEnv` below; older interpreters word it differently, so the model
  keeps it as a parameter of the environment. -/
  unboundResponseMsg : Str

/-- Per-connection session state: the two buffers, the binding state of the
Python local `response` (None = still unbound), and the user's transcript
file viewed as the list of appended (role, text) records. -/
structure SessionState where
  chat_history : List Msg
  sql_chat_history : List Msg
  lastResponse : Option Str
  transcript : List (TRole × Str)

/-- Result of the guarded dispatch region (the inner `try` body):
the buffers as left by the branch (including mutations made before an
exception), the external agent invocations performed, and the outcome. -/
structure TryResult where
  chat_history : List Msg
  sql_chat_history : List Msg
  calls : List AgentCall
  outcome : Except Str Str

/-- The enhanced message built on the medical-qa path (app.py lines 898-913):
original message + doctors block + optional knowledge-base block + fixed
instruction suffix. -/
def enhanced_msg (env : Env) (msg : Str) : Str :=
  let doctors_list := get_all_doctors_list env.store
  let faiss_context : Option Str :=
    match env.retriever with
    | some f => if pyStrip msg ≠ [] then some (f msg) else none
    | none => none
  let base := msg ++ ("\n\n[SYSTEM - DOCTORS DATABASE]:\n").toList ++ doctors_list ++
    ("\n\n").toList
  let base :=
    match faiss_context with
    | some c =>
      if c ≠ [] ∧ ¬ (containsSub c (("No relevant").toList)) then
        base ++ ("[SYSTEM - MEDICAL KNOWLEDGE BASE]:\n").toList ++ c ++ ("\n\n").toList
      else base
    | none => base
  base ++ ("INSTRUCTIONS: Based on the user's symptoms, choose the most appropriate doctor from the list above and give him a hint base on the symptoms and medical knowledge base.").toList

/-- The dispatch region of `chat_socket` (the body of the inner `try`,
app.py lines 840-921), for one inbound message. -/
def processTry (env : Env) (chat_history sql_chat_history : List Msg)
    (lastResponse : Option Str) (msg : Str) : TryResult :=
  if should_use_summary_agent msg then
    { chat_history := chat_history, sql_chat_history := sql_chat_history,
      calls := [AgentCall.summary env.user_name],
      outcome := env.summaryAgent env.user_name }
  else if should_use_sql_agent msg then
    if has_availability_kw msg then
      let mentioned_doctors :=
        extract_mentioned_doctors_from_history (env.store.doctors.map (fun d => d.name))
          chat_history
      let slots_info := build_slots_info mentioned_doctors env.store
      let augmented := message_for_agent slots_info msg
      let sqlBuf := pyTruncate env.bound
        (sql_chat_history ++ [⟨MRole.user, augmented⟩])
      match env.sqlAgent sqlBuf with
      | Except.ok (newList, response) =>
        { chat_history := chat_history,
          sql_chat_history := newList ++ [⟨MRole.assistant, response⟩],
          calls := [AgentCall.sqlAgent sqlBuf], outcome := Except.ok response }
      | Except.error e =>
        { chat_history := chat_history, sql_chat_history := sqlBuf,
          calls := [AgentCall.sqlAgent sqlBuf], outcome := Except.error e }
    else
      -- dangling branch: no prefetch, no invocation; the local `response`
      -- keeps its previous binding, and reading it while still unbound
      -- raises UnboundLocalError at line 924
      { chat_history := chat_history, sql_chat_history := sql_chat_history,
        calls := [],
        outcome := match lastResponse with
          | some r => Except.ok r
          | none => Except.error env.unboundResponseMsg }
  else
    let em := enhanced_msg env msg
    let chatBuf := pyTruncate env.bound (chat_history ++ [⟨MRole.user, em⟩])
    match env.llmAgent chatBuf with
    | Except.ok (newList, response) =>
      { chat_history := newList ++ [⟨MRole.assistant, response⟩],
        sql_chat_history := sql_chat_history,
        calls := [AgentCall.medicalQa chatBuf], outcome := Except.ok response }
    | Except.error e =>
      { chat_history := chatBuf, sql_chat_history := sql_chat_history,
        calls := [AgentCall.medicalQa chatBuf], outcome := Except.error e }

/-- One iteration of the websocket session loop for an inbound message
(app.py lines 832-928): log the user line, run the guarded dispatch,
then either log the bot line and send the response, or send
`"Bot Error: " + str(e)`.  Returns the new state, the string sent to the
client, and the agent invocations performed. -/
def stepSession (env : Env) (st : SessionState) (msg : Str) :
    SessionState × Str × List AgentCall :=
  let t1 := st.transcript ++ [(TRole.user, msg)]
  let r := processTry env st.chat_history st.sql_chat_history st.lastResponse msg
  match r.outcome with
  | Except.ok response =>
    ({ chat_history := r.chat_history, sql_chat_history := r.sql_chat_history,
       lastResponse := some response,
       transcript := t1 ++ [(TRole.bot, response)] }, response, r.calls)
  | Except.error e =>
    ({ chat_history := r.chat_history, sql_chat_history := r.sql_chat_history,
       lastResponse := st.lastResponse, transcript := t1 },
     ("Bot Error: ").toList ++ e, r.calls)

/-- The session loop over a finite stream of inbound messages: the final
state and the strings sent to the client, in order. -/
def runSession (env : Env) : SessionState → List Str → SessionState × List Str
  | st, [] => (st, [])
  | st, m :: ms =>
    let r := stepSession env st m
    let rest := runSession env r.1 ms
    (rest.1, r.2.1 :: rest.2)

/-- The fresh state of a new connection. -/
def initialState : SessionState :=
  { chat_history := [], sql_chat_history := [], lastResponse := none, transcript := [] }

/-- One record written through `save_chat_message`: the role, the message
text, and the timestamp produced by `strftime("%d-%m-%Y %H:%M:%S")`. -/
structure LogTriple where
  role : TRole
  text : Str
  ts : Str
deriving DecidableEq

/-- The role word written into the file. -/
def roleStr : TRole → Str
  | TRole.user => ("user").toList
  | TRole.bot => ("bot").toList

/-- The line written by `save_chat_message`:
`f"[{timestamp}] {role}: {message}\n\n"`. -/
def formatEntry (t : LogTriple) : Str :=
  ("[").toList ++ t.ts ++ ("] ").toList ++ roleStr t.role ++ (": ").toList ++
    t.text ++ ("\n\n").toList

/-- The file contents after appending a sequence of records to an empty file. -/
def writeLog (ts : List LogTriple) : Str := (ts.map formatEntry).flatten

/-- The shape `\d{2}-\d{2}-\d{4} \d{2}:\d{2}:\d{2}` of the timestamp group
in the history-API regex (every `strftime("%d-%m-%Y %H:%M:%S")` output
matches it). -/
def tsShape (ts : Str) : Bool :=
  match ts with
  | [d1, d2, h1, m1, m2, h2, y1, y2, y3, y4, sp, a1, a2, c1, b1, b2, c2, e1, e2] =>
    d1.isDigit ∧ d2.isDigit ∧ h1 = '-' ∧ m1.isDigit ∧ m2.isDigit ∧ h2 = '-' ∧
    y1.isDigit ∧ y2.isDigit ∧ y3.isDigit ∧ y4.isDigit ∧ sp = ' ' ∧
    a1.isDigit ∧ a2.isDigit ∧ c1 = ':' ∧ b1.isDigit ∧ b2.isDigit ∧ c2 = ':' ∧
    e1.isDigit ∧ e2.isDigit
  | _ => false

/-- Strip an expected literal prefix, or fail. -/
def stripPfx : Str → Str → Option Str
  | [], s => some s
  | _ :: _, [] => none
  | c :: p, a :: s => if a = c then stripPfx p s else none

/-- The lazy group `(.+?)(?=\n\[|\Z)` after at least one character has been
consumed: keep consuming until the remaining input is empty (`\Z`) or
starts with `"\n["` (the lookahead, which is not consumed). -/
def lazyGo : Str → Str → Str × Str
  | acc, [] => (acc.reverse, [])
  | acc, a :: rest =>
    if a = '\n' ∧ rest.head? = some '[' then (acc.reverse, a :: rest)
    else lazyGo (a :: acc) rest

/-- The lazy group `(.+?)(?=\n\[|\Z)`: at least one character, then the
shortest extension to a lookahead position. -/
def lazyText : Str → Option (Str × Str)
  | [] => none
  | c :: rest => some (lazyGo [c] rest)

/-- One attempted match of the history-API pattern
`\[(\d{2}-\d{2}-\d{4} \d{2}:\d{2}:\d{2})\] (user|bot): (.+?)(?=\n\[|\Z)`
at the current position; on success returns the three groups and the
remaining input (the lookahead is not consumed). -/
def matchAt (s : Str) : Option ((Str × TRole × Str) × Str) :=
  match stripPfx (("[").toList) s with
  | none => none
  | some s1 =>
    let ts := s1.take 19
    if tsShape ts then
      match stripPfx (("] ").toList) (s1.drop 19) with
      | none => none
      | some s2 =>
        match stripPfx (("user: ").toList) s2 with
        | some s3 => (lazyText s3).map (fun p => ((ts, TRole.user, p.1), p.2))
        | none =>
          match stripPfx (("bot: ").toList) s2 with
          | some s3 => (lazyText s3).map (fun p => ((ts, TRole.bot, p.1), p.2))
          | none => none
    else none

/-- The `re.findall` of the history pattern with `re.DOTALL`: scan left to
right for non-overlapping matches (fuel-driven; `scanChat` supplies
sufficient fuel). -/
def scanF : Nat → Str → List (Str × TRole × Str)
  | 0, _ => []
  | _ + 1, [] => []
  | n + 1, c :: rest =>
    match matchAt (c :: rest) with
    | some (e, rest') => e :: scanF n rest'
    | none => scanF n rest

/-- The `re.findall(pattern, content, re.DOTALL)` on the file contents. -/
def scanChat (s : Str) : List (Str × TRole × Str) := scanF s.length s

/-- The `api_chat_history`'s parse of the file: each regex match becomes a
record with the text stripped (`text.strip()`). -/
def api_parse (content : Str) : List LogTriple :=
  (scanChat content).map (fun e => ⟨e.2.1, pyStrip e.2.2, e.1⟩)

/-- The substring `"\n["` whose presence in a message text breaks the
transcript round trip. -/
def nlBracket : Str := ('\n' :: '[' :: [])

/-- A record the round trip can preserve: a well-shaped timestamp and a
text free of the `"\n["` pattern. -/
def goodTriple (t : LogTriple) : Prop :=
  tsShape t.ts = true ∧ containsSub t.text nlBracket = false

instance : DecidablePred goodTriple := fun t => by
  unfold goodTriple; infer_instance

example :
    api_parse (writeLog
      [⟨TRole.user, ("hi there").toList, ("01-02-2021 10:00:00").toList⟩,
       ⟨TRole.bot, (" padded ").toList, ("01-02-2021 10:00:05").toList⟩]) =
      [⟨TRole.user, ("hi there").toList, ("01-02-2021 10:00:00").toList⟩,
       ⟨TRole.bot, ("padded").toList, ("01-02-2021 10:00:05").toList⟩] := by decide

/-! ## Theorems -/

/-- The `should_use_summary_agent` tests exactly: some summary keyword is a
substring of the lowered message. -/
lemma should_use_summary_iff (msg : Str) :
    should_use_summary_agent msg = true ↔
      ∃ k ∈ SUMMARY_AGENT_KEYWORDS, k <:+: lowerStr msg := by
  simp [should_use_summary_agent, containsSub, List.any_eq_true]

/-- The `should_use_sql_agent` tests exactly: some sql keyword is a substring
of the lowered message. -/
lemma should_use_sql_iff (msg : Str) :
    should_use_sql_agent msg = true ↔
      ∃ k ∈ SQL_AGENT_KEYWORDS, k <:+: lowerStr msg := by
  simp [should_use_sql_agent, containsSub, List.any_eq_true]

/-- C3: classification lower-cases the message and returns `Summary` iff a
summary keyword is a substring, else `SqlAgent` iff a sql keyword is a
substring, else `MedicalQa`; in particular summary keywords take
precedence over sql keywords and a message matching neither list is
`MedicalQa`.  The classifier is a total pure function by construction. -/
theorem classify_keyword_routing (msg : Str) :
    (classify msg = Intent.Summary ↔
      ∃ k ∈ SUMMARY_AGENT_KEYWORDS, k <:+: lowerStr msg) ∧
    (classify msg = Intent.SqlAgent ↔
      (¬ ∃ k ∈ SUMMARY_AGENT_KEYWORDS, k <:+: lowerStr msg) ∧
      ∃ k ∈ SQL_AGENT_KEYWORDS, k <:+: lowerStr msg) ∧
    (classify msg = Intent.MedicalQa ↔
      (¬ ∃ k ∈ SUMMARY_AGENT_KEYWORDS, k <:+: lowerStr msg) ∧
      ¬ ∃ k ∈ SQL_AGENT_KEYWORDS, k <:+: lowerStr msg) := by
  have hs := should_use_summary_iff msg
  have hq := should_use_sql_iff msg
  by_cases h1 : should_use_summary_agent msg = true <;>
    by_cases h2 : should_use_sql_agent msg = true <;>
      simp [h1, h2, classify] at hs hq ⊢ <;> tauto

/-- The reverse scan of `extract_mentioned_doctors_from_history` only ever
uses the first assistant entry it meets. -/
lemma extract_scan_eq (all_doctors : List Str) :
    ∀ l : List Msg,
      extract_scan all_doctors l =
        match l.find? (fun e => decide (e.role = MRole.assistant)) with
        | none => []
        | some e => all_doctors.filter (fun doctor_name =>
            containsSub (lowerStr e.content) (lowerStr doctor_name))
  | [] => rfl
  | e :: rest => by
    by_cases h : e.role = MRole.assistant <;>
      simp [extract_scan, List.find?, h, extract_scan_eq all_doctors rest]

/-- C4: doctor extraction inspects only the most recent assistant entry of
the general buffer (earlier history is never searched) and returns
exactly the roster doctors whose name is a case-insensitive substring of
that entry's content, in roster-iteration order — i.e. it coincides with
the specification-side `extractMentionedSpec`. -/
theorem extract_only_last_assistant (all_doctors : List Str) (chat_history : List Msg) :
    extract_mentioned_doctors_from_history all_doctors chat_history =
      extractMentionedSpec all_doctors chat_history := by
  unfold extract_mentioned_doctors_from_history extractMentionedSpec
  exact extract_scan_eq all_doctors chat_history.reverse

/-- The conversation length carried in an agent invocation (0 for the
summary agent, which is invoked with only the user name). -/
def convLen : AgentCall → Nat
  | AgentCall.summary _ => 0
  | AgentCall.sqlAgent conv => conv.length
  | AgentCall.medicalQa conv => conv.length

/-- The invocations of a step are those of its dispatch region, whether it
succeeds or raises. -/
lemma stepSession_calls (env : Env) (st : SessionState) (msg : Str) :
    (stepSession env st msg).2.2 =
      (processTry env st.chat_history st.sql_chat_history st.lastResponse msg).calls := by
  unfold stepSession
  cases h : (processTry env st.chat_history st.sql_chat_history st.lastResponse msg).outcome <;>
    simp [h]

/-- Which agents the dispatch region invokes, by branch. -/
lemma processTry_calls_kind (env : Env) (chat_history sql_chat_history : List Msg)
    (lastResponse : Option Str) (msg : Str) :
    ((processTry env chat_history sql_chat_history lastResponse msg).calls).map callKind =
      (if should_use_summary_agent msg then [Intent.Summary]
       else if should_use_sql_agent msg then
         (if has_availability_kw msg then [Intent.SqlAgent] else [])
       else [Intent.MedicalQa]) := by
  unfold processTry
  by_cases h1 : should_use_summary_agent msg = true <;>
    by_cases h2 : should_use_sql_agent msg = true <;>
      by_cases h3 : has_availability_kw msg = true <;>
        simp [h1, h2, h3, callKind] <;> split <;> simp [callKind]

/-- C1 (amended): per inbound message the kinds of external agent
invocations are: exactly one summary invocation for summary-keyword
messages, exactly one sql invocation for sql-keyword messages that also
contain an availability sub-keyword, *no invocation at all* for
sql-keyword messages without an availability sub-keyword (the dangling
branch), and exactly one medical-qa invocation otherwise. -/
theorem agent_invocations_per_message (env : Env) (st : SessionState) (msg : Str) :
    ((stepSession env st msg).2.2).map callKind =
      (if should_use_summary_agent msg then [Intent.Summary]
       else if should_use_sql_agent msg then
         (if has_availability_kw msg then [Intent.SqlAgent] else [])
       else [Intent.MedicalQa]) := by
  rw [stepSession_calls]
  exact processTry_calls_kind env st.chat_history st.sql_chat_history st.lastResponse msg

/-- A concrete environment for counterexamples and witnesses: empty store,
buffer bound 2, echoing agents. -/
def cexEnv : Env :=
  { store := ⟨[], []⟩, bound := 2, user_name := ("Alice").toList,
    retriever := none,
    summaryAgent := fun _ => Except.ok (("summary text").toList),
    sqlAgent := fun conv => Except.ok (conv, ("sql response").toList),
    llmAgent := fun conv => Except.ok (conv, ("llm response").toList),
    unboundResponseMsg :=
      ("cannot access local variable 'response' where it is not associated with a value").toList }

/-- C1 counterexample: `"book"` contains a sql keyword (and no summary
keyword), yet its processing performs *zero* external agent invocations,
against the claimed "exactly one per inbound message". -/
theorem agent_invocations_cex :
    should_use_sql_agent (("book").toList) = true ∧
    should_use_summary_agent (("book").toList) = false ∧
    (stepSession cexEnv initialState (("book").toList)).2.2 = [] := by
  refine ⟨by decide, by decide, ?_⟩
  decide

/-- C2 (amended): with a positive configured bound, (i) the user-append
followed by the Python truncation always leaves the buffer at length at
most the bound — in particular every conversation actually passed to the
sql or medical agent respects the bound; (ii) appending when exactly at
the bound evicts exactly the oldest entry (FIFO), never a middle one.
The *assistant* append performed after the agent's returned list replaces
the buffer is, however, not truncated, so the stored buffer itself can
exceed the bound until the next user append (see the counterexample). -/
theorem buffer_bound_amended :
    (∀ (bound : Nat) (l : List Msg) (x : Msg), 0 < bound →
      (pyTruncate bound (l ++ [x])).length ≤ bound) ∧
    (∀ (bound : Nat) (l : List Msg) (x : Msg), 0 < bound → l.length = bound →
      pyTruncate bound (l ++ [x]) = l.tail ++ [x]) ∧
    (∀ (env : Env) (st : SessionState) (msg : Str), 0 < env.bound →
      ∀ c ∈ (stepSession env st msg).2.2, convLen c ≤ env.bound) := by
  have htrunc : ∀ (bound : Nat) (l : List Msg) (x : Msg), 0 < bound →
      (pyTruncate bound (l ++ [x])).length ≤ bound := by
    intro bound l x hb
    unfold pyTruncate pyLastSlice
    split_ifs with h1 h2
    · omega
    · simp only [List.length_drop]
      omega
    · simp only [List.length_append, List.length_singleton] at h1 ⊢
      omega
  refine ⟨htrunc, ?_, ?_⟩
  · intro bound l x hb hl
    unfold pyTruncate pyLastSlice
    have hlen : (l ++ [x]).length = bound + 1 := by simp [hl]
    rw [if_pos (by omega), if_neg (by omega), hlen]
    have h1 : bound + 1 - bound = 1 := by omega
    rw [h1, List.drop_append_of_le_length (by omega), List.drop_one]
  · intro env st msg hb c hc
    rw [stepSession_calls] at hc
    unfold processTry at hc
    by_cases h1 : should_use_summary_agent msg = true
    · simp [h1] at hc
      subst hc; simp [convLen]
    · by_cases h2 : should_use_sql_agent msg = true
      · by_cases h3 : has_availability_kw msg = true
        · simp [h1, h2, h3] at hc
          split at hc <;> simp at hc <;>
            (subst hc; simpa [convLen] using htrunc _ _ _ hb)
        · simp [h1, h2, h3] at hc
      · simp [h1, h2] at hc
        split at hc <;> simp at hc <;>
          (subst hc; simpa [convLen] using htrunc _ _ _ hb)

/-- Three sample buffer entries. -/
def mA : Msg := ⟨MRole.user, ("first").toList⟩

/-- Second sample entry. -/
def mB : Msg := ⟨MRole.assistant, ("second").toList⟩

/-- Third sample entry. -/
def mC : Msg := ⟨MRole.user, ("third").toList⟩

/-- An availability-keyword message used to exercise the sql prefetch path. -/
def wAvailMsg : Str := ("show slots").toList

/-- The sql-agent invocation performed by `stepSession cexEnv initialState
wAvailMsg` (the truncated buffer carrying the prefetch-augmented message). -/
def wCall : AgentCall :=
  AgentCall.sqlAgent (pyTruncate cexEnv.bound
    (initialState.sql_chat_history ++
      [⟨MRole.user, message_for_agent
        (build_slots_info
          (extract_mentioned_doctors_from_history
            (cexEnv.store.doctors.map (fun d => d.name)) initialState.chat_history)
          cexEnv.store) wAvailMsg⟩]))

/-- Witness for the amended buffer theorem at concrete inputs. -/
theorem buffer_bound_amended_witness :
    (pyTruncate 2 ([mA, mB] ++ [mC])).length ≤ 2 ∧
    pyTruncate 2 ([mA, mB] ++ [mC]) = [mB, mC] ∧
    wCall ∈ (stepSession cexEnv initialState wAvailMsg).2.2 ∧
    convLen wCall ≤ cexEnv.bound :=
  ⟨buffer_bound_amended.1 2 [mA, mB] mC (by decide),
   buffer_bound_amended.2.1 2 [mA, mB] mC (by decide) (by decide),
   by decide,
   buffer_bound_amended.2.2 cexEnv initialState wAvailMsg (by decide) wCall (by decide)⟩

/-- A session state whose sql buffer already holds one entry. -/
def stC2 : SessionState :=
  { chat_history := [], sql_chat_history := [⟨MRole.assistant, ("old").toList⟩],
    lastResponse := none, transcript := [] }

/-- C2 counterexample: with bound 2 and an agent that (as the langgraph
agents do) returns the conversation it was given plus nothing dropped,
one availability message leaves the sql buffer at length 3 > 2 after the
untruncated assistant append — the claimed "at most the bound after any
sequence of appends" fails. -/
theorem buffer_bound_cex :
    cexEnv.bound = 2 ∧
    ((stepSession cexEnv stC2 wAvailMsg).1.sql_chat_history).length = 3 := by
  exact ⟨rfl, by decide⟩

/-- C7: every inbound message produces exactly one string to the client —
either the dispatch's normal response, or `"Bot Error: " + str(e)` when
the dispatch region raised — and the session loop answers every message
of the stream (one send per receive, the connection is never dropped by
a failing message). -/
theorem session_error_handling :
    (∀ (env : Env) (st : SessionState) (msg : Str),
      (∃ r, (processTry env st.chat_history st.sql_chat_history st.lastResponse msg).outcome
          = Except.ok r ∧ (stepSession env st msg).2.1 = r) ∨
      (∃ e, (processTry env st.chat_history st.sql_chat_history st.lastResponse msg).outcome
          = Except.error e ∧
        (stepSession env st msg).2.1 = ("Bot Error: ").toList ++ e)) ∧
    (∀ (env : Env) (st : SessionState) (msgs : List Str),
      ((runSession env st msgs).2).length = msgs.length) := by
  constructor
  · intro env st msg
    cases h : (processTry env st.chat_history st.sql_chat_history st.lastResponse msg).outcome
      with
    | error e => right; exact ⟨e, rfl, by simp [stepSession, h]⟩
    | ok r => left; exact ⟨r, rfl, by simp [stepSession, h]⟩
  · intro env st msgs
    induction msgs generalizing st with
    | nil => rfl
    | cons m ms ih => simp [runSession, ih]

/-- C8: a summary-keyword message invokes the summary agent with only the
user name, and leaves both conversation buffers structurally unchanged. -/
theorem summary_dispatch_frame (env : Env) (st : SessionState) (msg : Str)
    (h : should_use_summary_agent msg = true) :
    (stepSession env st msg).1.chat_history = st.chat_history ∧
    (stepSession env st msg).1.sql_chat_history = st.sql_chat_history ∧
    (stepSession env st msg).2.2 = [AgentCall.summary env.user_name] := by
  unfold stepSession processTry
  cases hA : env.summaryAgent env.user_name <;> simp [h, hA]

/-- Witness for the summary frame property at `"give me a summary"`. -/
theorem summary_dispatch_frame_witness :
    should_use_summary_agent (("give me a summary").toList) = true ∧
    ((stepSession cexEnv initialState (("give me a summary").toList)).1.chat_history
        = initialState.chat_history ∧
      (stepSession cexEnv initialState (("give me a summary").toList)).1.sql_chat_history
        = initialState.sql_chat_history ∧
      (stepSession cexEnv initialState (("give me a summary").toList)).2.2
        = [AgentCall.summary cexEnv.user_name]) :=
  ⟨by decide, summary_dispatch_frame cexEnv initialState (("give me a summary").toList)
    (by decide)⟩

/-- C9 (amended): a sql-keyword message without summary keyword and without
availability sub-keyword enters the dangling branch: no agent is invoked,
no buffer changes; if no earlier dispatch of the session has successfully
assigned the local `response` (in particular on the first message, or
when every earlier dispatch failed before its assignment), reading the
still-unbound local raises `UnboundLocalError` and the client gets
`"Bot Error: "` followed by the interpreter's message for it, with no bot
transcript line; otherwise the most recently assigned response is re-sent
and re-logged verbatim. -/
theorem dangling_sql_branch (env : Env) (st : SessionState) (msg : Str)
    (h1 : should_use_summary_agent msg = false)
    (h2 : should_use_sql_agent msg = true)
    (h3 : has_availability_kw msg = false) :
    (st.lastResponse = none →
      (stepSession env st msg).2.1 = ("Bot Error: ").toList ++ env.unboundResponseMsg ∧
      (stepSession env st msg).1.transcript = st.transcript ++ [(TRole.user, msg)]) ∧
    (∀ r, st.lastResponse = some r →
      (stepSession env st msg).2.1 = r ∧
      (stepSession env st msg).1.transcript
        = st.transcript ++ [(TRole.user, msg), (TRole.bot, r)]) ∧
    (stepSession env st msg).2.2 = [] ∧
    (stepSession env st msg).1.chat_history = st.chat_history ∧
    (stepSession env st msg).1.sql_chat_history = st.sql_chat_history := by
  cases hl : st.lastResponse <;> simp [stepSession, processTry, h1, h2, h3, hl]

/-- A state in which a previous dispatch has assigned `response = "prev"`. -/
def stC9 : SessionState :=
  { chat_history := [], sql_chat_history := [], lastResponse := some (("prev").toList),
    transcript := [] }

/-- Witness for the dangling-branch behaviour at `"book"` with a
previously assigned response. -/
theorem dangling_sql_branch_witness :
    (should_use_summary_agent (("book").toList) = false ∧
      should_use_sql_agent (("book").toList) = true ∧
      has_availability_kw (("book").toList) = false) ∧
    (stepSession cexEnv stC9 (("book").toList)).2.1 = ("prev").toList ∧
    (stepSession cexEnv stC9 (("book").toList)).1.transcript
      = stC9.transcript ++ [(TRole.user, ("book").toList), (TRole.bot, ("prev").toList)] :=
  ⟨⟨by decide, by decide, by decide⟩,
   (dangling_sql_branch cexEnv stC9 (("book").toList) (by decide) (by decide)
      (by decide)).2.1 (("prev").toList) rfl⟩

/-- An environment whose medical agent raises. -/
def errEnv : Env :=
  { cexEnv with llmAgent := fun _ => Except.error (("boom").toList) }

/-- C9 counterexample: in a two-message session whose first dispatch
raises, the second message `"book"` is *not* the first dispatched message
of the session, yet the client does not receive a re-sent previous
response (none was ever assigned, as the transcript with no bot line
shows): it receives the `"Bot Error: "`-prefixed `UnboundLocalError`
message, and nothing is re-logged — the claim's "otherwise re-sends and
re-logs the previous iteration's response" prong is false. -/
theorem dangling_sql_branch_cex :
    should_use_sql_agent (("book").toList) = true ∧
    (runSession errEnv initialState [("hello").toList, ("book").toList]).2 =
      [("Bot Error: boom").toList,
       ("Bot Error: ").toList ++ errEnv.unboundResponseMsg] ∧
    (runSession errEnv initialState [("hello").toList, ("book").toList]).1.transcript =
      [(TRole.user, ("hello").toList), (TRole.user, ("book").toList)] := by
  exact ⟨by decide, by decide, by decide⟩

/-- C10: the transcript gains the user line for every received message,
and gains a bot line only when the dispatch succeeded — a raising
dispatch leaves the turn with no paired bot line, and the
`"Bot Error: ..."` string sent to the client is never written to the
transcript. -/
theorem transcript_error_frame (env : Env) (st : SessionState) (msg : Str) :
    (stepSession env st msg).1.transcript =
      st.transcript ++ (TRole.user, msg) ::
        (match (processTry env st.chat_history st.sql_chat_history st.lastResponse
            msg).outcome with
         | Except.ok r => [(TRole.bot, r)]
         | Except.error _ => []) := by
  cases h : (processTry env st.chat_history st.sql_chat_history st.lastResponse msg).outcome <;>
    simp [stepSession, h]

/-- C5 (amended): when the mentioned doctors have zero open slots, the
prefetch block falls back to listing every open slot of the store (the
sorted listing is a permutation of all open joined rows), prefixed by the
explanatory message naming the mentioned doctors and with each slot in
the `"- Slot ID {id}: {doctor} ({specialization}) - {time}"` format —
*provided at least one open slot exists*; when the store has no open slot
at all, the block is the fixed no-slots message instead (see the
counterexample). -/
theorem slots_fallback (mentioned : List Str) (s : Store)
    (hm : mentioned ≠ [])
    (hz : get_slots_by_doctors mentioned s = []) :
    (get_slots_by_specialization_none s ≠ [] →
      build_slots_info mentioned s =
        ("No slots available for ").toList ++ joinComma mentioned ++
          (". Here are ALL available slots:\n").toList ++
          ((get_slots_by_specialization_none s).map fmtSlot).flatten ∧
      (get_slots_by_specialization_none s).Perm (openRows s)) ∧
    (get_slots_by_specialization_none s = [] →
      build_slots_info mentioned s =
        ("No appointment slots available at the moment.").toList) := by
  constructor
  · intro hall
    refine ⟨?_, List.perm_insertionSort _ _⟩
    unfold build_slots_info
    simp [hm, hz, hall]
  · intro hall
    unfold build_slots_info
    simp [hm, hz, hall]

/-- A store with one doctor holding one open slot. -/
def wStore : Store :=
  ⟨[⟨("Dr. Fontana").toList, ("Cardiology").toList⟩],
   [⟨1, ("Dr. Fontana").toList, ("2025-01-01 09:00").toList, none⟩]⟩

/-- A mentioned-doctor list with no open slots in `wStore`. -/
def wMentioned : List Str := [("Dr. Ricci").toList]

/-- Witness for the fallback at a concrete store: Dr. Ricci has no open
slots, so the block names Dr. Ricci and lists the whole store's open
slot. -/
theorem slots_fallback_witness :
    (wMentioned ≠ [] ∧ get_slots_by_doctors wMentioned wStore = [] ∧
      get_slots_by_specialization_none wStore ≠ []) ∧
    (build_slots_info wMentioned wStore =
      ("No slots available for ").toList ++ joinComma wMentioned ++
        (". Here are ALL available slots:\n").toList ++
        ((get_slots_by_specialization_none wStore).map fmtSlot).flatten ∧
      (get_slots_by_specialization_none wStore).Perm (openRows wStore)) :=
  ⟨⟨by decide, by decide, by decide⟩,
   (slots_fallback wMentioned wStore (by decide) (by decide)).1 (by decide)⟩

/-- A store whose only slot is already booked: no open slots at all. -/
def cexStoreBooked : Store :=
  ⟨[⟨("Dr. Rossi").toList, ("Dermatology").toList⟩],
   [⟨1, ("Dr. Rossi").toList, ("2025-01-01 09:00").toList, some (("Bob").toList)⟩]⟩

/-- C5 counterexample: mentioned doctors with zero open slots *and* an
empty open-slot store produce the fixed no-slots message, which does not
name the mentioned doctors and does not carry the claimed explanatory
prefix. -/
theorem slots_fallback_cex :
    get_slots_by_doctors [("Dr. Rossi").toList] cexStoreBooked = [] ∧
    build_slots_info [("Dr. Rossi").toList] cexStoreBooked =
      ("No appointment slots available at the moment.").toList ∧
    containsSub (build_slots_info [("Dr. Rossi").toList] cexStoreBooked)
      (("Dr. Rossi").toList) = false := by
  exact ⟨by decide, by decide, by decide⟩

/-- Substring-freeness as a negated infix. -/
lemma containsSub_false_iff (hay needle : Str) :
    containsSub hay needle = false ↔ ¬ needle <:+: hay := by
  simp [containsSub]

/-- Freeness is preserved by dropping the head. -/
lemma nlBracket_free_cons (c : Char) (t : Str)
    (h : containsSub (c :: t) nlBracket = false) :
    containsSub t nlBracket = false := by
  rw [containsSub_false_iff] at h ⊢
  exact fun hin => h (List.infix_cons hin)

/-- A string starting with `"\n["` is not free of it. -/
lemma nlBracket_free_head (r : Str)
    (h : containsSub ('\n' :: '[' :: r) nlBracket = false) : False := by
  rw [containsSub_false_iff] at h
  exact h ⟨[], r, rfl⟩

/-- A well-shaped timestamp has exactly 19 characters. -/
lemma tsShape_length (ts : Str) (h : tsShape ts = true) : ts.length = 19 := by
  unfold tsShape at h
  split at h
  · simp_all
  · simp at h

/-- The lazy group scans straight through a `"\n["`-free block when the
continuation does not begin with `'['`. -/
lemma lazyGo_through : ∀ (text acc cont : Str),
    containsSub text nlBracket = false → cont.head? ≠ some '[' →
    lazyGo acc (text ++ cont) = lazyGo (text.reverse ++ acc) cont := by
  intro text
  induction text with
  | nil => intro acc cont _ _; simp
  | cons c t ih =>
    intro acc cont hfree hcont
    have hfree' : containsSub t nlBracket = false := nlBracket_free_cons c t hfree
    have hcond : ¬ (c = '\n' ∧ (t ++ cont).head? = some '[') := by
      rintro ⟨hc, hh⟩
      subst hc
      cases t with
      | nil =>
        simp only [List.nil_append] at hh
        exact hcont hh
      | cons d t' =>
        simp only [List.cons_append, List.head?_cons, Option.some.injEq] at hh
        subst hh
        exact nlBracket_free_head t' hfree
    rw [List.cons_append]
    show lazyGo acc (c :: (t ++ cont)) = _
    rw [lazyGo, if_neg hcond, ih (c :: acc) cont hfree' hcont]
    simp [List.append_assoc]

/-- Lazy-group value for a non-final transcript block: stop at the
lookahead `"\n["`, consuming the text and one separator newline. -/
lemma lazyText_mid (text r : Str) (hfree : containsSub text nlBracket = false) :
    lazyText (text ++ ('\n' :: '\n' :: '[' :: r)) =
      some (text ++ ['\n'], '\n' :: '[' :: r) := by
  cases text with
  | nil =>
    show lazyText ('\n' :: '\n' :: '[' :: r) = _
    rw [lazyText, lazyGo]
    simp
  | cons c t =>
    have hfree' := nlBracket_free_cons c t hfree
    rw [List.cons_append, lazyText]
    rw [lazyGo_through t [c] ('\n' :: '\n' :: '[' :: r) hfree' (by simp)]
    rw [lazyGo, if_neg (by simp), lazyGo, if_pos (by simp)]
    simp

/-- Lazy-group value for the final transcript block: run to end of input,
consuming the text and both separator newlines. -/
lemma lazyText_last (text : Str) (hfree : containsSub text nlBracket = false) :
    lazyText (text ++ ('\n' :: '\n' :: [])) = some (text ++ ['\n', '\n'], []) := by
  cases text with
  | nil =>
    show lazyText ('\n' :: '\n' :: []) = _
    rw [lazyText, lazyGo, if_neg (by simp), lazyGo]
    simp
  | cons c t =>
    have hfree' := nlBracket_free_cons c t hfree
    rw [List.cons_append, lazyText]
    rw [lazyGo_through t [c] ('\n' :: '\n' :: []) hfree' (by simp)]
    rw [lazyGo, if_neg (by simp), lazyGo, if_neg (by simp), lazyGo]
    simp

/-- Stripping ignores one trailing newline. -/
lemma pyStrip_append_newline (s : Str) : pyStrip (s ++ ['\n']) = pyStrip s := by
  unfold pyStrip
  rw [List.dropWhile_append]
  cases h : s.dropWhile isPySpace with
  | nil => simp [h, List.dropWhile_cons, isPySpace]
  | cons d ds =>
    simp only [h, List.isEmpty_cons, Bool.false_eq_true, if_false]
    rw [List.reverse_append]
    show (((['\n'].reverse) ++ _).dropWhile isPySpace).reverse = _
    simp [List.dropWhile_cons, isPySpace]

/-- Stripping ignores the two-newline separator. -/
lemma pyStrip_append_sep (s : Str) : pyStrip (s ++ ['\n', '\n']) = pyStrip s := by
  have h : s ++ ['\n', '\n'] = (s ++ ['\n']) ++ ['\n'] := by simp
  rw [h, pyStrip_append_newline, pyStrip_append_newline]

/-- Character-list forms of the literal tags (all by computation). -/
lemma toList_lb : ("[").toList = ['['] := rfl

/-- Characters of the bracket-space tag after the timestamp. -/
lemma toList_rb : ("] ").toList = [']', ' '] := rfl

/-- Characters of the user role tag. -/
lemma toList_userTag : ("user: ").toList = ['u', 's', 'e', 'r', ':', ' '] := rfl

/-- Characters of the bot role tag. -/
lemma toList_botTag : ("bot: ").toList = ['b', 'o', 't', ':', ' '] := rfl

/-- The `formatEntry` in head-normal form. -/
lemma formatEntry_eq (t : LogTriple) :
    formatEntry t =
      '[' :: (t.ts ++ (']' :: ' ' :: (roleStr t.role ++
        (':' :: ' ' :: (t.text ++ ('\n' :: '\n' :: [])))))) := by
  show ("[").toList ++ t.ts ++ ("] ").toList ++ roleStr t.role ++ (": ").toList ++
      t.text ++ ("\n\n").toList = _
  simp [List.append_assoc]

/-- A match attempt at a transcript block reduces to the lazy group over
the text and separator. -/
lemma matchAt_format (t : LogTriple) (W : Str) (hg : goodTriple t) :
    matchAt (formatEntry t ++ W) =
      (lazyText (t.text ++ ('\n' :: '\n' :: W))).map
        (fun p => ((t.ts, t.role, p.1), p.2)) := by
  obtain ⟨hts, _⟩ := hg
  have hlen := tsShape_length t.ts hts
  have hshape : formatEntry t ++ W =
      '[' :: (t.ts ++ (']' :: ' ' :: (roleStr t.role ++
        (':' :: ' ' :: (t.text ++ ('\n' :: '\n' :: W)))))) := by
    rw [formatEntry_eq]
    simp [List.append_assoc]
  rw [hshape]
  show matchAt ('[' :: _) = _
  simp only [matchAt, toList_lb, toList_rb, toList_userTag, toList_botTag, stripPfx,
    if_pos, List.take_left' hlen, List.drop_left' hlen, hts, if_true]
  cases t.role <;>
    simp [roleStr, stripPfx, List.cons_append]

/-- Match value for the final transcript block. -/
lemma matchAt_format_last (t : LogTriple) (hg : goodTriple t) :
    matchAt (formatEntry t) = some ((t.ts, t.role, t.text ++ ['\n', '\n']), []) := by
  have h := matchAt_format t [] hg
  rw [List.append_nil] at h
  rw [h, lazyText_last t.text hg.2]
  rfl

/-- Match value for a non-final transcript block. -/
lemma matchAt_format_mid (t : LogTriple) (r : Str) (hg : goodTriple t) :
    matchAt (formatEntry t ++ '[' :: r) =
      some ((t.ts, t.role, t.text ++ ['\n']), '\n' :: '[' :: r) := by
  have h := matchAt_format t ('[' :: r) hg
  rw [h, lazyText_mid t.text r hg.2]
  rfl

/-- No match can start on the separator newline. -/
lemma matchAt_newline (s : Str) : matchAt ('\n' :: s) = none := rfl

/-- Scanning the empty input finds nothing, whatever the fuel. -/
lemma scanF_nil (n : Nat) : scanF n [] = [] := by cases n <;> rfl

/-- The `scanF` unfolding on a cons with positive fuel. -/
lemma scanF_succ_cons (n : Nat) (c : Char) (rest : Str) :
    scanF (n + 1) (c :: rest) =
      match matchAt (c :: rest) with
      | some (e, rest') => e :: scanF n rest'
      | none => scanF n rest := rfl

/-- The `writeLog` distributes over cons. -/
lemma writeLog_cons (t : LogTriple) (l : List LogTriple) :
    writeLog (t :: l) = formatEntry t ++ writeLog l := by
  simp [writeLog]

/-- Every transcript block has at least two characters. -/
lemma two_le_formatEntry_length (t : LogTriple) : 2 ≤ (formatEntry t).length := by
  rw [formatEntry_eq]
  simp
  omega

/-- Scanning a well-formed transcript with sufficient fuel recovers, in
order, one record per written block, with the text stripped. -/
lemma scanF_writeLog : ∀ (l : List LogTriple) (fuel : Nat),
    (∀ t ∈ l, goodTriple t) → (writeLog l).length ≤ fuel →
    (scanF fuel (writeLog l)).map
        (fun e => (⟨e.2.1, pyStrip e.2.2, e.1⟩ : LogTriple)) =
      l.map (fun t => (⟨t.role, pyStrip t.text, t.ts⟩ : LogTriple)) := by
  intro l
  induction l with
  | nil => intro fuel _ _; simp [writeLog, scanF_nil]
  | cons t l' ih =>
    intro fuel hg hfuel
    have hgt : goodTriple t := hg t (by simp)
    have hgl' : ∀ u ∈ l', goodTriple u := fun u hu => hg u (by simp [hu])
    have hfe2 := two_le_formatEntry_length t
    rw [writeLog_cons] at hfuel ⊢
    obtain ⟨X1, hX1⟩ : ∃ X, formatEntry t = '[' :: X := ⟨_, formatEntry_eq t⟩
    cases l' with
    | nil =>
      rw [show writeLog [] = [] from rfl, List.append_nil] at hfuel ⊢
      obtain ⟨n, rfl⟩ : ∃ n, fuel = n + 1 := ⟨fuel - 1, by omega⟩
      rw [hX1, scanF_succ_cons, ← hX1, matchAt_format_last t hgt]
      simp [scanF_nil, pyStrip_append_sep]
    | cons t2 l'' =>
      obtain ⟨X2, hX2⟩ : ∃ X, formatEntry t2 = '[' :: X := ⟨_, formatEntry_eq t2⟩
      have hW : writeLog (t2 :: l'') = '[' :: (X2 ++ writeLog l'') := by
        rw [writeLog_cons, hX2]; rfl
      have hflen : (formatEntry t).length + (writeLog (t2 :: l'')).length ≤ fuel := by
        rw [← List.length_append]; exact hfuel
      obtain ⟨n, rfl⟩ : ∃ n, fuel = n + 2 := ⟨fuel - 2, by omega⟩
      have hcons : formatEntry t ++ writeLog (t2 :: l'') =
          '[' :: (X1 ++ writeLog (t2 :: l'')) := by rw [hX1]; rfl
      rw [hcons, show (n + 2) = (n + 1) + 1 from rfl, scanF_succ_cons, ← hcons]
      rw [hW, show formatEntry t ++ '[' :: (X2 ++ writeLog l'') =
        formatEntry t ++ '[' :: (X2 ++ writeLog l'') from rfl] at hcons ⊢
      rw [matchAt_format_mid t (X2 ++ writeLog l'') hgt]
      have hn : (writeLog (t2 :: l'')).length ≤ n := by omega
      simp only []
      rw [scanF_succ_cons, matchAt_newline]
      simp only []
      rw [← hW]
      simp only [List.map_cons]
      rw [ih n hgl' hn, pyStrip_append_newline]
      simp

/-- C6 (amended): writing any sequence of records through the transcript
logger and parsing the file with the history-API regex yields the same
records in the same order, each text equal to the original after
trimming — *provided* no text contains the substring `"\n["` (a newline
followed by an opening bracket); such a text breaks the round trip (see
the counterexample), as the spec's own design notes anticipate. -/
theorem transcript_round_trip (l : List LogTriple)
    (hg : ∀ t ∈ l, goodTriple t) :
    api_parse (writeLog l) =
      l.map (fun t => (⟨t.role, pyStrip t.text, t.ts⟩ : LogTriple)) := by
  unfold api_parse scanChat
  exact scanF_writeLog l (writeLog l).length hg (le_refl _)

/-- Witness: a concrete two-record transcript round-trips. -/
theorem transcript_round_trip_witness :
    (∀ t ∈ [(⟨TRole.user, ("hi doc").toList, ("01-02-2021 10:00:00").toList⟩ : LogTriple),
            ⟨TRole.bot, (" see Dr. Rossi ").toList, ("01-02-2021 10:00:05").toList⟩],
       goodTriple t) ∧
    api_parse (writeLog
        [⟨TRole.user, ("hi doc").toList, ("01-02-2021 10:00:00").toList⟩,
         ⟨TRole.bot, (" see Dr. Rossi ").toList, ("01-02-2021 10:00:05").toList⟩]) =
      ([⟨TRole.user, ("hi doc").toList, ("01-02-2021 10:00:00").toList⟩,
        ⟨TRole.bot, (" see Dr. Rossi ").toList, ("01-02-2021 10:00:05").toList⟩] :
          List LogTriple).map
        (fun t => (⟨t.role, pyStrip t.text, t.ts⟩ : LogTriple)) :=
  ⟨by decide,
   transcript_round_trip
     [⟨TRole.user, ("hi doc").toList, ("01-02-2021 10:00:00").toList⟩,
      ⟨TRole.bot, (" see Dr. Rossi ").toList, ("01-02-2021 10:00:05").toList⟩]
     (by decide)⟩

/-- A record whose text embeds a line that itself looks like a transcript
header. -/
def cexTriple : LogTriple :=
  ⟨TRole.user, ("hey\n[01-01-2020 00:00:00] bot: fake").toList,
   ("02-02-2020 00:00:00").toList⟩

/-- C6 counterexample: writing the single record `cexTriple` and parsing
the file does *not* return that one record (trimmed): the embedded
`"\n[...]"` line makes the regex produce two records, so the claimed
round trip fails. -/
theorem transcript_round_trip_cex :
    api_parse (writeLog [cexTriple]) ≠
      [(⟨cexTriple.role, pyStrip cexTriple.text, cexTriple.ts⟩ : LogTriple)] ∧
    (api_parse (writeLog [cexTriple])).length = 2 := by
  exact ⟨by decide, by decide⟩

end HealthAssistant
